import Mathlib

/-!
Shallow embedding of `scripts/src/ecosystem_scripts/validate_registry.py`
(scverse/ecosystem-packages).

External effects (HTTP HEAD/POST, jsonschema, the filesystem, PIL image
decoding) are modelled as oracle functions collected in a `World` record;
every external request issued by the code is additionally recorded as an
`ExtCall` in the returned trace, so that claims about the *number* of
external calls can be stated.  Python `KeyError` propagation is modelled
with `Except String`.
-/

/-- Mirrors the `ValidationError` dataclass: an error message. -/
structure ValidationError where
  msg : String
deriving DecidableEq, Repr

/-- One external request issued by the validator.  `head url` is an
`httpx.head` probe; `ghQuery names` is the single batched GraphQL POST of
`GitHubUserValidator.validate_usernames`. -/
inductive ExtCall where
  | head (url : String)
  | ghQuery (names : List String)
deriving DecidableEq, Repr

/-- Python `repr` of a string (single quotes), used in f-strings with `!r`. -/
def pyRepr (s : String) : String := "'" ++ s ++ "'"

/-- Python `repr` of a list of strings, as in `f"{unvalidated!r}"`. -/
def pyListRepr (l : List String) : String :=
  "[" ++ String.intercalate ", " (l.map pyRepr) ++ "]"

/-- Mirrors the `LinkChecker` class state: the set of known links. -/
structure LinkChecker where
  known_links : List String := []
deriving DecidableEq, Repr

/-- Mirrors `LinkChecker.check_and_register`.  The HTTP HEAD probe
(`httpx.head(url, follow_redirects=True).status_code`) is the oracle
`head`.  Returns the new checker state, the optional error, and the list
of external calls issued. -/
def LinkChecker.check_and_register (head : String → Nat) (self : LinkChecker)
    (url context : String) : LinkChecker × Option ValidationError × List ExtCall :=
  if url ∈ self.known_links then
    (self, some ⟨context ++ ": Duplicate link: " ++ url⟩, [])
  else
    let status := head url
    if status ≠ 200 then
      (self, some ⟨"URL " ++ url ++ " is not reachable (error " ++ toString status ++ "). "⟩,
        [ExtCall.head url])
    else
      ({ known_links := url :: self.known_links }, none, [ExtCall.head url])

/-- Claim C3: `LinkChecker.check_and_register` short-circuits duplicates
without probing; otherwise it probes exactly once, a non-OK status yields an
unreachable error carrying the status and leaves the known-links set
unchanged, and an OK (200) status registers the URL and returns no error. -/
theorem c3_check_and_register (head : String → Nat) (self : LinkChecker)
    (url context : String) :
    (url ∈ self.known_links →
      LinkChecker.check_and_register head self url context =
        (self, some ⟨context ++ ": Duplicate link: " ++ url⟩, [])) ∧
    (url ∉ self.known_links →
      (LinkChecker.check_and_register head self url context).2.2.length = 1 ∧
      (head url ≠ 200 →
        LinkChecker.check_and_register head self url context =
          (self, some ⟨"URL " ++ url ++ " is not reachable (error " ++
            toString (head url) ++ "). "⟩, [ExtCall.head url])) ∧
      (head url = 200 →
        LinkChecker.check_and_register head self url context =
          ({ known_links := url :: self.known_links }, none, [ExtCall.head url]))) := by
  constructor
  · intro hmem
    simp [LinkChecker.check_and_register, hmem]
  · intro hmem
    refine ⟨?_, ?_, ?_⟩
    · by_cases hs : head url = 200 <;>
        simp [LinkChecker.check_and_register, hmem, hs]
    · intro hs
      simp [LinkChecker.check_and_register, hmem, hs]
    · intro hs
      simp [LinkChecker.check_and_register, hmem, hs]

/-- Witness for C3 at a concrete input: a fresh checker, a reachable URL. -/
theorem c3_check_and_register_witness :
    ("https://a.example" ∉ (LinkChecker.mk []).known_links) ∧
    LinkChecker.check_and_register (fun _ => 200) (LinkChecker.mk [])
        "https://a.example" "pkg" =
      ({ known_links := ["https://a.example"] }, none, [ExtCall.head "https://a.example"]) :=
  ⟨by decide,
    ((c3_check_and_register (fun _ => 200) (LinkChecker.mk []) "https://a.example" "pkg").2
      (by decide)).2.2 rfl⟩

/-- Mirrors the `GitHubUserValidator` class state. -/
structure GitHubUserValidator where
  github_token : Option String := none
  validated_users : List String := []
deriving DecidableEq, Repr

/-- The still-unvalidated part of a batch:
`list(set(usernames) - self.validated_users)` in the source.  (Python set
iteration order is arbitrary; we model it by deduplicating the list.) -/
def pendingUsernames (validated usernames : List String) : List String :=
  usernames.dedup.filter (fun u => !(validated.contains u))

/-- Mirrors `GitHubUserValidator.validate_usernames`.  The batched GraphQL
POST is the oracle `ghPost`, returning the HTTP status and the list of
messages under the response's `errors` key. -/
def GitHubUserValidator.validate_usernames (ghPost : List String → Nat × List String)
    (self : GitHubUserValidator) (usernames : List String) (context : String) :
    GitHubUserValidator × Option ValidationError × List ExtCall :=
  let unvalidated := pendingUsernames self.validated_users usernames
  if unvalidated.isEmpty then (self, none, [])
  else
    let (status, gqlErrors) := ghPost unvalidated
    if status ≠ 200 then
      (self, some ⟨context ++ ": Failed to validate GitHub users " ++
        pyListRepr unvalidated ++ " (error " ++ toString status ++ ")"⟩,
        [ExtCall.ghQuery unvalidated])
    else if !gqlErrors.isEmpty then
      (self, some ⟨context ++ ": Failed to validate GitHub users " ++
        pyListRepr unvalidated ++ ":\n" ++
        String.intercalate "\n" (gqlErrors.map (fun e => "- " ++ e))⟩,
        [ExtCall.ghQuery unvalidated])
    else
      ({ self with validated_users := self.validated_users ++ unvalidated }, none,
        [ExtCall.ghQuery unvalidated])

/-- Mirrors the `PyPIValidator` class state. -/
structure PyPIValidator where
  validated_packages : List String := []
deriving DecidableEq, Repr

/-- Mirrors `PyPIValidator.validate_package`. -/
def PyPIValidator.validate_package (head : String → Nat) (self : PyPIValidator)
    (package_name context : String) : PyPIValidator × Option ValidationError × List ExtCall :=
  if package_name ∈ self.validated_packages then (self, none, [])
  else
    let url := "https://pypi.org/pypi/" ++ package_name ++ "/json"
    let status := head url
    if status = 404 then
      (self, some ⟨context ++ ": PyPI package " ++ pyRepr package_name ++ " does not exist"⟩,
        [ExtCall.head url])
    else if status ≠ 200 then
      (self, some ⟨context ++ ": Failed to validate PyPI package " ++ pyRepr package_name ++
        " (error " ++ toString status ++ ")"⟩, [ExtCall.head url])
    else
      ({ validated_packages := package_name :: self.validated_packages }, none,
        [ExtCall.head url])

/-- First occurrence split of a character list at the separator `sep`:
`some (before, after)` when `sep` occurs, `none` otherwise.  Mirrors
Python `s.split(sep, 1)` together with the `sep in s` test. -/
def splitOnceAux (sep : List Char) : List Char → Option (List Char × List Char)
  | [] => none
  | c :: rest =>
    if sep.isPrefixOf (c :: rest) then some ([], (c :: rest).drop sep.length)
    else
      match splitOnceAux sep rest with
      | some (before, after) => some (c :: before, after)
      | none => none

/-- String version of `splitOnceAux`. -/
def splitOnce (sep s : String) : Option (String × String) :=
  (splitOnceAux sep.toList s.toList).map (fun p => (String.mk p.1, String.mk p.2))

/-- Mirrors the `CondaValidator` class state. -/
structure CondaValidator where
  validated_packages : List String := []
deriving DecidableEq, Repr

/-- Mirrors `CondaValidator.validate_package`: a spec without the `::`
separator is rejected locally; otherwise the spec is split at the first
`::` into channel and package name and looked up on that channel. -/
def CondaValidator.validate_package (head : String → Nat) (self : CondaValidator)
    (package_spec context : String) : CondaValidator × Option ValidationError × List ExtCall :=
  if package_spec ∈ self.validated_packages then (self, none, [])
  else
    match splitOnce "::" package_spec with
    | none =>
      (self, some ⟨context ++ ": Invalid Conda package spec " ++ pyRepr package_spec ++
        " (expected format: channel::package)"⟩, [])
    | some (channel, package_name) =>
      let url := "https://api.anaconda.org/package/" ++ channel ++ "/" ++ package_name
      let status := head url
      if status = 404 then
        (self, some ⟨context ++ ": Conda package '" ++ package_spec ++ "' does not exist"⟩,
          [ExtCall.head url])
      else if status ≠ 200 then
        (self, some ⟨context ++ ": Failed to validate Conda package '" ++ package_spec ++
          "' (error " ++ toString status ++ ")"⟩, [ExtCall.head url])
      else
        ({ validated_packages := package_spec :: self.validated_packages }, none,
          [ExtCall.head url])

/-- Mirrors the `CRANValidator` class state. -/
structure CRANValidator where
  validated_packages : List String := []
deriving DecidableEq, Repr

/-- Mirrors `CRANValidator.validate_package`. -/
def CRANValidator.validate_package (head : String → Nat) (self : CRANValidator)
    (package_name context : String) : CRANValidator × Option ValidationError × List ExtCall :=
  if package_name ∈ self.validated_packages then (self, none, [])
  else
    let url := "https://crandb.r-pkg.org/" ++ package_name
    let status := head url
    if status = 404 then
      (self, some ⟨context ++ ": CRAN package '" ++ package_name ++ "' does not exist"⟩,
        [ExtCall.head url])
    else if status ≠ 200 then
      (self, some ⟨context ++ ": Failed to validate CRAN package '" ++ package_name ++
        "' (error " ++ toString status ++ ")"⟩, [ExtCall.head url])
    else
      ({ validated_packages := package_name :: self.validated_packages }, none,
        [ExtCall.head url])

/-- Mirrors the constant `IMAGE_SIZE = 512`. -/
def IMAGE_SIZE : Nat := 512

/-- The final path component (text after the last `/`), as `pathlib`'s
`.name`. -/
def lastComponent (p : String) : String :=
  String.mk ((p.toList.reverse.takeWhile (fun c => c ≠ '/')).reverse)

/-- Index of the last `.` in a character list, when one occurs. -/
def lastDotIdx : List Char → Option Nat
  | [] => none
  | c :: rest =>
    match lastDotIdx rest with
    | some i => some (i + 1)
    | none => if c = '.' then some 0 else none

/-- `pathlib`'s `.suffix`: the extension of the final component, nonempty
only when the last dot is neither the first nor the last character of the
component. -/
def pathSuffix (p : String) : String :=
  let name := (lastComponent p).toList
  match lastDotIdx name with
  | some i => if 0 < i ∧ i < name.length - 1 then String.mk (name.drop i) else ""
  | none => ""

/-- Mirrors `check_image`.  `imgExists` models `Path.exists`; `imgSize`
models PIL's decoded `(width, height)`.  The second component records
whether the image was decoded (`Image.open` reached). -/
def check_image (imgExists : String → Bool) (imgSize : String → Nat × Nat)
    (img_path : String) : Option ValidationError × Bool :=
  if !(imgExists img_path) then
    (some ⟨"Image does not exist: " ++ img_path⟩, false)
  else if pathSuffix img_path = ".svg" then
    (none, false)
  else
    let (width, height) := imgSize img_path
    if ¬((width = IMAGE_SIZE ∧ height ≤ IMAGE_SIZE) ∨
         (width ≤ IMAGE_SIZE ∧ height = IMAGE_SIZE)) then
      (some ⟨"When validating " ++ img_path ++ ": Image must fit in a " ++
        toString IMAGE_SIZE ++ "x" ++ toString IMAGE_SIZE ++ "px bounding box\n" ++
        "and one dimension must be exactly " ++ toString IMAGE_SIZE ++ " px.\n" ++
        "Actual dimensions (width, height): (" ++ toString width ++ ", (" ++
        toString height ++ ")).\"\n"⟩, true)
    else
      (none, true)

/-- Claim C8: a missing path always errors (without decoding); an existing
`.svg` path passes without decoding; any other existing path is decoded and
passes exactly when the dimensions fit a 512×512 box with one dimension
exactly 512. -/
theorem c8_check_image (imgExists : String → Bool) (imgSize : String → Nat × Nat)
    (img_path : String) :
    (imgExists img_path = false →
      check_image imgExists imgSize img_path =
        (some ⟨"Image does not exist: " ++ img_path⟩, false)) ∧
    (imgExists img_path = true → pathSuffix img_path = ".svg" →
      check_image imgExists imgSize img_path = (none, false)) ∧
    (imgExists img_path = true → pathSuffix img_path ≠ ".svg" →
      (check_image imgExists imgSize img_path).2 = true ∧
      ((check_image imgExists imgSize img_path).1 = none ↔
        (((imgSize img_path).1 = 512 ∧ (imgSize img_path).2 ≤ 512) ∨
         ((imgSize img_path).2 = 512 ∧ (imgSize img_path).1 ≤ 512)))) := by
  refine ⟨?_, ?_, ?_⟩
  · intro hex
    simp [check_image, hex]
  · intro hex hsvg
    simp [check_image, hex, hsvg]
  · intro hex hsvg
    by_cases hdim : ((imgSize img_path).1 = IMAGE_SIZE ∧ (imgSize img_path).2 ≤ IMAGE_SIZE) ∨
        ((imgSize img_path).1 ≤ IMAGE_SIZE ∧ (imgSize img_path).2 = IMAGE_SIZE)
    · constructor
      · simp [check_image, hex, hsvg, hdim]
      · simp only [check_image, hex, hsvg, hdim]
        simp [IMAGE_SIZE] at hdim ⊢
        omega
    · constructor
      · simp [check_image, hex, hsvg, hdim]
      · simp only [check_image, hex, hsvg, hdim]
        simp [IMAGE_SIZE] at hdim ⊢
        omega

/-- Witness for C8 at a concrete input: a decoded 512×300 raster logo
passes (existing path, non-svg suffix). -/
theorem c8_check_image_witness :
    (fun _ : String => true) "logo.png" = true ∧ pathSuffix "logo.png" ≠ ".svg" ∧
    (check_image (fun _ => true) (fun _ => (512, 300)) "logo.png").1 = none :=
  ⟨rfl, by decide,
    ((c8_check_image (fun _ => true) (fun _ => (512, 300)) "logo.png").2.2 rfl
      (by decide)).2.mpr (by decide)⟩

/-- Claim C6: `GitHubUserValidator.validate_usernames` is atomic over a
batch: on a non-OK status or on aggregate GraphQL errors it produces exactly
one `ValidationError` and adds no username to the validated set; on a clean
success it adds every pending username of the batch. -/
theorem c6_github_batch_atomic (ghPost : List String → Nat × List String)
    (self : GitHubUserValidator) (usernames : List String) (context : String)
    (status : Nat) (gqlErrors : List String)
    (hne : pendingUsernames self.validated_users usernames ≠ [])
    (hp : ghPost (pendingUsernames self.validated_users usernames) = (status, gqlErrors)) :
    ((status ≠ 200 ∨ gqlErrors ≠ []) →
      (GitHubUserValidator.validate_usernames ghPost self usernames context).1 = self ∧
      ∃ e, (GitHubUserValidator.validate_usernames ghPost self usernames context).2.1 =
        some e) ∧
    ((status = 200 ∧ gqlErrors = []) →
      (GitHubUserValidator.validate_usernames ghPost self usernames context).2.1 = none ∧
      ∀ u ∈ pendingUsernames self.validated_users usernames,
        u ∈ (GitHubUserValidator.validate_usernames ghPost self usernames context).1.validated_users) := by
  have hne' : (pendingUsernames self.validated_users usernames).isEmpty = false := by
    simpa [List.isEmpty_iff] using hne
  constructor
  · rintro (hs | he)
    · by_cases h2 : status = 200
      · exact absurd h2 hs
      · constructor <;> simp [GitHubUserValidator.validate_usernames, hne', hp, h2]
    · by_cases h2 : status = 200
      · have he' : gqlErrors.isEmpty = false := by simpa [List.isEmpty_iff] using he
        constructor <;>
          simp [GitHubUserValidator.validate_usernames, hne', hp, h2, he']
      · constructor <;> simp [GitHubUserValidator.validate_usernames, hne', hp, h2]
  · rintro ⟨hs, he⟩
    constructor
    · simp [GitHubUserValidator.validate_usernames, hne', hp, hs, he]
    · intro u hu
      simp [GitHubUserValidator.validate_usernames, hne', hp, hs, he]
      exact Or.inr hu

/-- Witness for C6 at a concrete input: one pending username, clean
success response; the username lands in the validated set. -/
theorem c6_github_batch_atomic_witness :
    pendingUsernames ([] : List String) ["alice"] ≠ [] ∧
    ((fun _ : List String => ((200 : Nat), ([] : List String)))
        (pendingUsernames [] ["alice"]) = (200, [])) ∧
    (GitHubUserValidator.validate_usernames (fun _ => (200, []))
        (GitHubUserValidator.mk none []) ["alice"] "pkg").2.1 = none :=
  ⟨by decide, rfl,
    ((c6_github_batch_atomic (fun _ => (200, [])) (GitHubUserValidator.mk none [])
      ["alice"] "pkg" 200 [] (by decide) rfl).2 ⟨rfl, rfl⟩).1⟩

/-- Claim C7 (under the cache invariant that only well-formed specs are
ever cached, which holds in every reachable state): a spec without `::` is
rejected locally as a malformed identifier with no external call; a spec
with `::` that is not cached is split at the first `::` and looked up with
exactly one per-channel request; and the invariant is preserved. -/
theorem c7_conda_validate_package (head : String → Nat) (self : CondaValidator)
    (package_spec context : String)
    (hinv : ∀ s ∈ self.validated_packages, (splitOnce "::" s).isSome) :
    (splitOnce "::" package_spec = none →
      CondaValidator.validate_package head self package_spec context =
        (self, some ⟨context ++ ": Invalid Conda package spec " ++ pyRepr package_spec ++
          " (expected format: channel::package)"⟩, [])) ∧
    (∀ channel package_name, splitOnce "::" package_spec = some (channel, package_name) →
      package_spec ∉ self.validated_packages →
      (CondaValidator.validate_package head self package_spec context).2.2 =
        [ExtCall.head ("https://api.anaconda.org/package/" ++ channel ++ "/" ++
          package_name)]) ∧
    (∀ s ∈ (CondaValidator.validate_package head self package_spec context).1.validated_packages,
      (splitOnce "::" s).isSome) := by
  refine ⟨?_, ?_, ?_⟩
  · intro hsplit
    have hmem : package_spec ∉ self.validated_packages := by
      intro hm
      have := hinv package_spec hm
      simp [hsplit] at this
    simp [CondaValidator.validate_package, hmem, hsplit]
  · intro channel package_name hsplit hmem
    by_cases h404 : head ("https://api.anaconda.org/package/" ++ channel ++ "/" ++
        package_name) = 404
    · simp [CondaValidator.validate_package, hmem, hsplit, h404]
    · by_cases h200 : head ("https://api.anaconda.org/package/" ++ channel ++ "/" ++
          package_name) = 200 <;>
        simp [CondaValidator.validate_package, hmem, hsplit, h404, h200]
  · intro s hs
    by_cases hmem : package_spec ∈ self.validated_packages
    · simp [CondaValidator.validate_package, hmem] at hs
      exact hinv s hs
    · rcases hsplit : splitOnce "::" package_spec with _ | ⟨channel, package_name⟩
      · simp [CondaValidator.validate_package, hmem, hsplit] at hs
        exact hinv s hs
      · by_cases h404 : head ("https://api.anaconda.org/package/" ++ channel ++ "/" ++
            package_name) = 404
        · simp [CondaValidator.validate_package, hmem, hsplit, h404] at hs
          exact hinv s hs
        · by_cases h200 : head ("https://api.anaconda.org/package/" ++ channel ++ "/" ++
              package_name) = 200
          · simp [CondaValidator.validate_package, hmem, hsplit, h404, h200] at hs
            rcases hs with hs | hs
            · simp [hs, hsplit]
            · exact hinv s hs
          · simp [CondaValidator.validate_package, hmem, hsplit, h404, h200] at hs
            exact hinv s hs

/-- Witness for C7 at a concrete input: a fresh validator rejects the
separator-free spec `scanpy` locally with no external call. -/
theorem c7_conda_validate_package_witness :
    (∀ s ∈ (CondaValidator.mk []).validated_packages, (splitOnce "::" s).isSome) ∧
    splitOnce "::" "scanpy" = none ∧
    CondaValidator.validate_package (fun _ => 200) (CondaValidator.mk []) "scanpy" "pkg" =
      (CondaValidator.mk [], some ⟨"pkg" ++ ": Invalid Conda package spec " ++
        pyRepr "scanpy" ++ " (expected format: channel::package)"⟩, []) :=
  ⟨by simp, by decide,
    (c7_conda_validate_package (fun _ => 200) (CondaValidator.mk []) "scanpy" "pkg"
      (by simp)).1 (by decide)⟩

/-- The optional `install` block of a package record (subset of
pypi/conda/cran identifiers). -/
structure Install where
  pypi : Option String := none
  conda : Option String := none
  cran : Option String := none
deriving DecidableEq, Repr

/-- One package's `meta.yaml` content together with its package id (the
containing directory name).  Fields the YAML may omit are `Option`;
`project_home` and `documentation_home` are required by the schema but can
still be absent in a structurally invalid record. -/
structure PackageRecord where
  pkg_id : String
  project_home : Option String := none
  documentation_home : Option String := none
  tutorials_home : Option String := none
  contact : Option (List String) := none
  install : Option Install := none
  logo : Option String := none
deriving DecidableEq, Repr

/-- Oracles for every external effect of the validator: HTTP HEAD status
by URL, the batched GitHub GraphQL POST, `jsonschema.validate` (the error
string it raises with, when any), file existence, and PIL image
dimensions. -/
structure World where
  head : String → Nat
  ghPost : List String → Nat × List String
  schemaError : PackageRecord → Option String
  imgExists : String → Bool
  imgSize : String → Nat × Nat

/-- The mutable checker/validator instances created at the top of
`validate_packages`. -/
structure PipelineState where
  link_checker_home : LinkChecker := {}
  link_checker_docs : LinkChecker := {}
  link_checker_tutorials : LinkChecker := {}
  github_validator : GitHubUserValidator := {}
  pypi_validator : PyPIValidator := {}
  conda_validator : CondaValidator := {}
  cran_validator : CRANValidator := {}
deriving Repr

/-- Python `if url := tmp_meta.get(key):` guarding a link check: the check
runs only on a present, truthy (nonempty) URL. -/
def checkOptLink (head : String → Nat) (lc : LinkChecker) (url? : Option String)
    (context : String) : LinkChecker × Option ValidationError × List ExtCall :=
  match url? with
  | some url =>
    if url ≠ "" then LinkChecker.check_and_register head lc url context
    else (lc, none, [])
  | none => (lc, none, [])

/-- Python `if usernames := tmp_meta.get("contact"):` guarding the GitHub
check: it runs only on a present, nonempty contact list. -/
def checkOptContact (ghPost : List String → Nat × List String)
    (gh : GitHubUserValidator) (contact? : Option (List String)) (context : String) :
    GitHubUserValidator × Option ValidationError × List ExtCall :=
  match contact? with
  | some usernames =>
    if usernames ≠ [] then GitHubUserValidator.validate_usernames ghPost gh usernames context
    else (gh, none, [])
  | none => (gh, none, [])

/-- Python `install_info.get(key)` under `if install_info := ...`, with the
walrus truthiness test on the identifier. -/
def installItem (install? : Option Install) (f : Install → Option String) : Option String :=
  match install? with
  | some install_info =>
    match f install_info with
    | some name => if name ≠ "" then some name else none
    | none => none
  | none => none

/-- Optional PyPI check (runs only when an identifier is present). -/
def checkOptPyPI (head : String → Nat) (v : PyPIValidator) (name? : Option String)
    (context : String) : PyPIValidator × Option ValidationError × List ExtCall :=
  match name? with
  | some name => PyPIValidator.validate_package head v name context
  | none => (v, none, [])

/-- Optional Conda check (runs only when an identifier is present). -/
def checkOptConda (head : String → Nat) (v : CondaValidator) (name? : Option String)
    (context : String) : CondaValidator × Option ValidationError × List ExtCall :=
  match name? with
  | some name => CondaValidator.validate_package head v name context
  | none => (v, none, [])

/-- Optional CRAN check (runs only when an identifier is present). -/
def checkOptCRAN (head : String → Nat) (v : CRANValidator) (name? : Option String)
    (context : String) : CRANValidator × Option ValidationError × List ExtCall :=
  match name? with
  | some name => CRANValidator.validate_package head v name context
  | none => (v, none, [])

/-- One iteration of the `validate_packages` loop body on a single record.
`jsonschema.validate` is caught and recorded; the later subscript accesses
`tmp_meta["project_home"]` and `tmp_meta["documentation_home"]` are *not*
guarded in the source, so a record missing one of them raises `KeyError`,
modelled as `Except.error`.  Returns the updated checker states, this
package's recorded errors (in check order, `None` results dropped as in
`ErrorList.append`), the record with its `logo` field rewritten to the
resolved registry path, and the external calls issued. -/
def processPackage (w : World) (registry_dir : String) (st : PipelineState)
    (rec : PackageRecord) :
    Except String (PipelineState × List ValidationError × PackageRecord × List ExtCall) :=
  let schemaErrs : List ValidationError :=
    match w.schemaError rec with
    | some e => [⟨e⟩]
    | none => []
  match rec.project_home with
  | none => .error "KeyError: 'project_home'"
  | some project_home =>
    let rHome :=
      LinkChecker.check_and_register w.head st.link_checker_home project_home rec.pkg_id
    match rec.documentation_home with
    | none => .error "KeyError: 'documentation_home'"
    | some documentation_home =>
      let rDocs :=
        LinkChecker.check_and_register w.head st.link_checker_docs documentation_home
          rec.pkg_id
      let rTut := checkOptLink w.head st.link_checker_tutorials rec.tutorials_home rec.pkg_id
      let rGh := checkOptContact w.ghPost st.github_validator rec.contact rec.pkg_id
      let rPy :=
        checkOptPyPI w.head st.pypi_validator (installItem rec.install (fun i => i.pypi))
          rec.pkg_id
      let rConda :=
        checkOptConda w.head st.conda_validator (installItem rec.install (fun i => i.conda))
          rec.pkg_id
      let rCran :=
        checkOptCRAN w.head st.cran_validator (installItem rec.install (fun i => i.cran))
          rec.pkg_id
      let rImg : Option ValidationError × PackageRecord :=
        match rec.logo with
        | some logo =>
          let img_path := registry_dir ++ "/" ++ rec.pkg_id ++ "/" ++ logo
          ((check_image w.imgExists w.imgSize img_path).1, { rec with logo := some img_path })
        | none => (none, rec)
      .ok
        ({ link_checker_home := rHome.1, link_checker_docs := rDocs.1,
           link_checker_tutorials := rTut.1, github_validator := rGh.1,
           pypi_validator := rPy.1, conda_validator := rConda.1, cran_validator := rCran.1 },
         schemaErrs ++ [rHome.2.1, rDocs.2.1, rTut.2.1, rGh.2.1, rPy.2.1, rConda.2.1,
           rCran.2.1, rImg.1].filterMap (fun e => e),
         rImg.2, rHome.2.2 ++ rDocs.2.2 ++ rTut.2.2 ++ rGh.2.2 ++ rPy.2.2 ++ rConda.2.2 ++
           rCran.2.2)

/-- `errors[pkg_id]` on the `defaultdict`: append this package's errors to
its entry, creating the (possibly empty) entry on first sight. -/
def insertErrors (m : List (String × List ValidationError)) (pid : String)
    (es : List ValidationError) : List (String × List ValidationError) :=
  match m with
  | [] => [(pid, es)]
  | (k, v) :: rest =>
    if k = pid then (k, v ++ es) :: rest else (k, v) :: insertErrors rest pid es

/-- The loop of `validate_packages` over the remaining records, carrying
the checker states, the error map, the collected metadata and the call
trace. -/
def validatePackagesAux (w : World) (registry_dir : String) :
    PipelineState → List (String × List ValidationError) → List PackageRecord →
    List ExtCall → List PackageRecord →
    Except String (List (String × List ValidationError) × List PackageRecord × List ExtCall)
  | _, errors, package_metadata, calls, [] => .ok (errors, package_metadata, calls)
  | st, errors, package_metadata, calls, rec :: rest =>
    match processPackage w registry_dir st rec with
    | .error e => .error e
    | .ok (st', es, rec', cs) =>
      validatePackagesAux w registry_dir st' (insertErrors errors rec.pkg_id es)
        (package_metadata ++ [rec']) (calls ++ cs) rest

/-- Mirrors `validate_packages`: fresh checker/validator instances, then
the loop over all discovered records in processing order (the source sorts
discovered `meta.yaml` files by containing directory name; the input list
here is that sorted discovery order). -/
def validate_packages (w : World) (registry_dir : String)
    (records : List PackageRecord) :
    Except String (List (String × List ValidationError) × List PackageRecord × List ExtCall) :=
  validatePackagesAux w registry_dir {} [] [] [] records

/-- `pathlib`'s `.parent` rendered as a string: the path with its final
component removed. -/
def dirname (p : String) : String :=
  String.mk (((p.toList.reverse.dropWhile (fun c => c ≠ '/')).drop 1).reverse)

/-- The loop of `make_output`.  The filesystem is the list `fs` of existing
directories; `Path.mkdir` (no `exist_ok`) on an existing directory raises
`FileExistsError`, modelled as `Except.error`.  Accumulates the rewritten
`packages_rel` list. -/
def makeOutputAux (outdir : Option String) :
    List String → List PackageRecord → List PackageRecord →
    Except String (List PackageRecord × List String)
  | fs, packages_rel, [] => .ok (packages_rel, fs)
  | fs, packages_rel, pkg :: rest =>
    match pkg.logo with
    | none => makeOutputAux outdir fs (packages_rel ++ [pkg]) rest
    | some img_srcpath =>
      let img_localpath :=
        lastComponent (dirname img_srcpath) ++ "/" ++ lastComponent img_srcpath
      let pkg_rel := { pkg with logo := some img_localpath }
      match outdir with
      | none => makeOutputAux outdir fs (packages_rel ++ [pkg_rel]) rest
      | some d =>
        let parent := d ++ "/" ++ lastComponent (dirname img_srcpath)
        if parent ∈ fs then .error ("FileExistsError: " ++ parent)
        else makeOutputAux outdir (parent :: fs) (packages_rel ++ [pkg_rel]) rest

/-- Mirrors `make_output`: rewrite each logo path to
`<package-id>/<original-filename>` and, when an output root is given,
create each per-package asset directory (failing if it already exists) and
copy the asset. -/
def make_output (fs : List String) (packages : List PackageRecord)
    (outdir : Option String) : Except String (List PackageRecord × List String) :=
  makeOutputAux outdir fs [] packages

/-- Outcome of `main` after `validate_packages` has run: an uncaught
exception, `sys.exit(1)` without output, or an invocation of
`make_output`. -/
inductive RunResult where
  | crashed (msg : String)
  | failed
  | output (res : Except String (List PackageRecord × List String))
deriving Repr

/-- Mirrors the tail of `main`: `sys.exit(1)` when any package accumulated
errors (`any(errors.values())`), otherwise hand the records to
`make_output`. -/
def mainRun (w : World) (fs : List String) (registry_dir : String)
    (outdir : Option String) (records : List PackageRecord) : RunResult :=
  match validate_packages w registry_dir records with
  | .error e => .crashed e
  | .ok (errors, packages, _) =>
    if errors.any (fun p => !p.2.isEmpty) then .failed
    else .output (make_output fs packages outdir)

/-- Whether an external call is the batched GitHub username query. -/
def isGhQuery : ExtCall → Bool
  | .ghQuery _ => true
  | .head _ => false

/-- Number of batched GitHub username queries issued by a run (zero when
the run crashed). -/
def ghQueryCount
    (r : Except String (List (String × List ValidationError) × List PackageRecord × List ExtCall)) :
    Nat :=
  match r with
  | .ok (_, _, calls) => (calls.filter isGhQuery).length
  | .error _ => 0

/-- The error list recorded for a package id by a run (empty when absent or
when the run crashed). -/
def errsFor
    (r : Except String (List (String × List ValidationError) × List PackageRecord × List ExtCall))
    (pid : String) : List ValidationError :=
  match r with
  | .ok (errors, _, _) =>
    match errors.find? (fun p => p.1 == pid) with
    | some p => p.2
    | none => []
  | .error _ => []

/-- The in-place logo rewrite of the loop body:
`tmp_meta["logo"] = str(registry_dir / pkg_id / tmp_meta["logo"])`. -/
def rewriteLogo (registry_dir : String) (rec : PackageRecord) : PackageRecord :=
  match rec.logo with
  | some logo =>
    { rec with logo := some (registry_dir ++ "/" ++ rec.pkg_id ++ "/" ++ logo) }
  | none => rec

/-- A benign world: every URL reachable, GitHub clean, images 512×512,
and `jsonschema` rejecting exactly the records missing `project_home`. -/
def benignWorld : World :=
  { head := fun _ => 200, ghPost := fun _ => (200, []),
    schemaError := fun r =>
      if r.project_home = none then some "'project_home' is a required property" else none,
    imgExists := fun _ => true, imgSize := fun _ => (512, 512) }

/-- A structurally invalid record: the required `project_home` is
missing. -/
def recMissingHome : PackageRecord :=
  { pkg_id := "badpkg", documentation_home := some "https://docs.example" }

/-- Claim C1 (code bug): on a record whose schema validation fails because
`project_home` is missing, the loop body's unguarded subscript
`tmp_meta["project_home"]` raises `KeyError` past the pipeline boundary —
`validate_packages` crashes instead of recording the violation and running
the remaining checks with the field treated as absent. -/
theorem c1_missing_required_field_crashes :
    benignWorld.schemaError recMissingHome = some "'project_home' is a required property" ∧
    validate_packages benignWorld "registry" [recMissingHome] =
      .error "KeyError: 'project_home'" :=
  ⟨rfl, rfl⟩

/-- First package of the C2 run: declares a contact set. -/
def recContactA : PackageRecord :=
  { pkg_id := "alpha", project_home := some "https://a.example",
    documentation_home := some "https://docs.a.example", contact := some ["usera"] }

/-- Second package of the C2 run: declares a different contact set. -/
def recContactB : PackageRecord :=
  { pkg_id := "beta", project_home := some "https://b.example",
    documentation_home := some "https://docs.b.example", contact := some ["userb"] }

/-- Counterexample to claim C2 as stated: in a run over two packages that
both declare contact sets, two batched GitHub existence queries are
issued — the batching is per package, not at most one per run. -/
theorem c2_whole_run_batching_counterexample :
    recContactA.contact ≠ none ∧ recContactB.contact ≠ none ∧
    1 < ghQueryCount (validate_packages benignWorld "registry" [recContactA, recContactB]) := by
  refine ⟨by decide, by decide, ?_⟩
  have h : ghQueryCount (validate_packages benignWorld "registry" [recContactA, recContactB])
      = 2 := rfl
  rw [h]
  decide

/-- `LinkChecker.check_and_register` never issues a GitHub query. -/
theorem check_and_register_no_ghQuery (head : String → Nat) (lc : LinkChecker)
    (url context : String) :
    (LinkChecker.check_and_register head lc url context).2.2.filter isGhQuery = [] := by
  by_cases hmem : url ∈ lc.known_links
  · simp [LinkChecker.check_and_register, hmem]
  · by_cases hs : head url = 200 <;>
      simp [LinkChecker.check_and_register, hmem, hs, isGhQuery]

/-- The optional link check never issues a GitHub query. -/
theorem checkOptLink_no_ghQuery (head : String → Nat) (lc : LinkChecker)
    (url? : Option String) (context : String) :
    (checkOptLink head lc url? context).2.2.filter isGhQuery = [] := by
  rcases url? with _ | url
  · simp [checkOptLink]
  · by_cases h : url = ""
    · simp [checkOptLink, h]
    · simp [checkOptLink, h, check_and_register_no_ghQuery]

/-- `PyPIValidator.validate_package` never issues a GitHub query. -/
theorem pypi_validate_no_ghQuery (head : String → Nat) (v : PyPIValidator)
    (name context : String) :
    (PyPIValidator.validate_package head v name context).2.2.filter isGhQuery = [] := by
  by_cases hmem : name ∈ v.validated_packages
  · simp [PyPIValidator.validate_package, hmem]
  · by_cases h404 : head ("https://pypi.org/pypi/" ++ name ++ "/json") = 404
    · simp [PyPIValidator.validate_package, hmem, h404, isGhQuery]
    · by_cases h200 : head ("https://pypi.org/pypi/" ++ name ++ "/json") = 200 <;>
        simp [PyPIValidator.validate_package, hmem, h404, h200, isGhQuery]

/-- `CondaValidator.validate_package` never issues a GitHub query. -/
theorem conda_validate_no_ghQuery (head : String → Nat) (v : CondaValidator)
    (spec context : String) :
    (CondaValidator.validate_package head v spec context).2.2.filter isGhQuery = [] := by
  by_cases hmem : spec ∈ v.validated_packages
  · simp [CondaValidator.validate_package, hmem]
  · rcases hsplit : splitOnce "::" spec with _ | ⟨channel, name⟩
    · simp [CondaValidator.validate_package, hmem, hsplit]
    · by_cases h404 : head ("https://api.anaconda.org/package/" ++ channel ++ "/" ++ name) = 404
      · simp [CondaValidator.validate_package, hmem, hsplit, h404, isGhQuery]
      · by_cases h200 :
            head ("https://api.anaconda.org/package/" ++ channel ++ "/" ++ name) = 200 <;>
          simp [CondaValidator.validate_package, hmem, hsplit, h404, h200, isGhQuery]

/-- `CRANValidator.validate_package` never issues a GitHub query. -/
theorem cran_validate_no_ghQuery (head : String → Nat) (v : CRANValidator)
    (name context : String) :
    (CRANValidator.validate_package head v name context).2.2.filter isGhQuery = [] := by
  by_cases hmem : name ∈ v.validated_packages
  · simp [CRANValidator.validate_package, hmem]
  · by_cases h404 : head ("https://crandb.r-pkg.org/" ++ name) = 404
    · simp [CRANValidator.validate_package, hmem, h404, isGhQuery]
    · by_cases h200 : head ("https://crandb.r-pkg.org/" ++ name) = 200 <;>
        simp [CRANValidator.validate_package, hmem, h404, h200, isGhQuery]

/-- The optional PyPI check never issues a GitHub query. -/
theorem checkOptPyPI_no_ghQuery (head : String → Nat) (v : PyPIValidator)
    (name? : Option String) (context : String) :
    (checkOptPyPI head v name? context).2.2.filter isGhQuery = [] := by
  rcases name? with _ | name
  · simp [checkOptPyPI]
  · simp [checkOptPyPI, pypi_validate_no_ghQuery]

/-- The optional Conda check never issues a GitHub query. -/
theorem checkOptConda_no_ghQuery (head : String → Nat) (v : CondaValidator)
    (name? : Option String) (context : String) :
    (checkOptConda head v name? context).2.2.filter isGhQuery = [] := by
  rcases name? with _ | name
  · simp [checkOptConda]
  · simp [checkOptConda, conda_validate_no_ghQuery]

/-- The optional CRAN check never issues a GitHub query. -/
theorem checkOptCRAN_no_ghQuery (head : String → Nat) (v : CRANValidator)
    (name? : Option String) (context : String) :
    (checkOptCRAN head v name? context).2.2.filter isGhQuery = [] := by
  rcases name? with _ | name
  · simp [checkOptCRAN]
  · simp [checkOptCRAN, cran_validate_no_ghQuery]

/-- `GitHubUserValidator.validate_usernames` issues at most one GitHub
query per invocation. -/
theorem validate_usernames_ghQuery_le_one (ghPost : List String → Nat × List String)
    (self : GitHubUserValidator) (usernames : List String) (context : String) :
    ((GitHubUserValidator.validate_usernames ghPost self usernames context).2.2.filter
      isGhQuery).length ≤ 1 := by
  rcases hp : ghPost (pendingUsernames self.validated_users usernames) with ⟨status, errsl⟩
  by_cases hemp : (pendingUsernames self.validated_users usernames).isEmpty
  · simp [GitHubUserValidator.validate_usernames, hemp]
  · by_cases h200 : status = 200
    · by_cases he : errsl.isEmpty <;>
        simp [GitHubUserValidator.validate_usernames, hemp, hp, h200, he, isGhQuery]
    · simp [GitHubUserValidator.validate_usernames, hemp, hp, h200, isGhQuery]

/-- The optional contact check issues at most one GitHub query. -/
theorem checkOptContact_ghQuery_le_one (ghPost : List String → Nat × List String)
    (gh : GitHubUserValidator) (contact? : Option (List String)) (context : String) :
    ((checkOptContact ghPost gh contact? context).2.2.filter isGhQuery).length ≤ 1 := by
  rcases contact? with _ | usernames
  · simp [checkOptContact]
  · by_cases h : usernames = []
    · simp [checkOptContact, h]
    · simp only [checkOptContact]
      rw [if_pos h]
      exact validate_usernames_ghQuery_le_one ghPost gh usernames context

/-- One loop iteration issues at most one GitHub query (the only possible
one being the batched contact check). -/
theorem processPackage_ghQuery_le_one (w : World) (registry_dir : String)
    (st : PipelineState) (rec : PackageRecord)
    (res : PipelineState × List ValidationError × PackageRecord × List ExtCall)
    (h : processPackage w registry_dir st rec = .ok res) :
    (res.2.2.2.filter isGhQuery).length ≤ 1 := by
  rcases hph : rec.project_home with _ | ph
  · simp [processPackage, hph] at h
  · rcases hdh : rec.documentation_home with _ | dh
    · simp [processPackage, hph, hdh] at h
    · simp only [processPackage, hph, hdh, Except.ok.injEq] at h
      subst h
      simp only [List.filter_append, List.length_append,
        check_and_register_no_ghQuery, checkOptLink_no_ghQuery, checkOptPyPI_no_ghQuery,
        checkOptConda_no_ghQuery, checkOptCRAN_no_ghQuery, List.length_nil]
      have := checkOptContact_ghQuery_le_one w.ghPost st.github_validator rec.contact
        rec.pkg_id
      omega

/-- Over the loop, the number of GitHub queries grows by at most one per
processed record. -/
theorem validatePackagesAux_ghQuery_le (w : World) (registry_dir : String) :
    ∀ (records : List PackageRecord) (st : PipelineState)
      (errors : List (String × List ValidationError)) (meta : List PackageRecord)
      (calls : List ExtCall) (errors' : List (String × List ValidationError))
      (meta' : List PackageRecord) (calls' : List ExtCall),
      validatePackagesAux w registry_dir st errors meta calls records =
        .ok (errors', meta', calls') →
      (calls'.filter isGhQuery).length ≤ (calls.filter isGhQuery).length + records.length
  | [], st, errors, meta, calls, errors', meta', calls', h => by
    simp only [validatePackagesAux, Except.ok.injEq, Prod.mk.injEq] at h
    obtain ⟨h1, h2, h3⟩ := h
    subst h3
    simp
  | rec :: rest, st, errors, meta, calls, errors', meta', calls', h => by
    rcases hp : processPackage w registry_dir st rec with e | res
    · simp [validatePackagesAux, hp] at h
    · obtain ⟨st', es, rec', cs⟩ := res
      simp only [validatePackagesAux, hp] at h
      have ih := validatePackagesAux_ghQuery_le w registry_dir rest st'
        (insertErrors errors rec.pkg_id es) (meta ++ [rec']) (calls ++ cs)
        errors' meta' calls' h
      have hone : ((cs : List ExtCall).filter isGhQuery).length ≤ 1 :=
        processPackage_ghQuery_le_one w registry_dir st rec (st', es, rec', cs) hp
      simp only [List.filter_append, List.length_append, List.length_cons] at ih ⊢
      omega

/-- Claim C2 (amended): GitHub username validation is batched per package,
not per run — a run over N discovered packages issues at most N batched
GitHub existence queries (at most one per package, and none for packages
whose pending username set is empty). -/
theorem c2_ghQuery_at_most_one_per_package (w : World) (registry_dir : String)
    (records : List PackageRecord) :
    ghQueryCount (validate_packages w registry_dir records) ≤ records.length := by
  rcases hr : validate_packages w registry_dir records with e | ⟨errors, meta, calls⟩
  · simp [ghQueryCount]
  · have := validatePackagesAux_ghQuery_le w registry_dir records {} [] [] []
      errors meta calls hr
    simpa [ghQueryCount] using this

/-- One loop iteration returns the input record with only its logo field
rewritten to the resolved registry path, whatever the check results
were. -/
theorem processPackage_record_eq (w : World) (registry_dir : String)
    (st : PipelineState) (rec : PackageRecord)
    (res : PipelineState × List ValidationError × PackageRecord × List ExtCall)
    (h : processPackage w registry_dir st rec = .ok res) :
    res.2.2.1 = rewriteLogo registry_dir rec := by
  rcases hph : rec.project_home with _ | ph
  · simp [processPackage, hph] at h
  · rcases hdh : rec.documentation_home with _ | dh
    · simp [processPackage, hph, hdh] at h
    · simp only [processPackage, hph, hdh, Except.ok.injEq] at h
      subst h
      rcases hlogo : rec.logo with _ | logo <;> simp [rewriteLogo, hlogo, hph, hdh]

/-- Over the loop, the metadata accumulator collects every processed
record, in order, with logos rewritten. -/
theorem validatePackagesAux_metadata (w : World) (registry_dir : String) :
    ∀ (records : List PackageRecord) (st : PipelineState)
      (errors : List (String × List ValidationError)) (meta : List PackageRecord)
      (calls : List ExtCall) (errors' : List (String × List ValidationError))
      (meta' : List PackageRecord) (calls' : List ExtCall),
      validatePackagesAux w registry_dir st errors meta calls records =
        .ok (errors', meta', calls') →
      meta' = meta ++ records.map (rewriteLogo registry_dir)
  | [], st, errors, meta, calls, errors', meta', calls', h => by
    simp only [validatePackagesAux, Except.ok.injEq, Prod.mk.injEq] at h
    obtain ⟨h1, h2, h3⟩ := h
    subst h2
    simp
  | rec :: rest, st, errors, meta, calls, errors', meta', calls', h => by
    rcases hp : processPackage w registry_dir st rec with e | res
    · simp [validatePackagesAux, hp] at h
    · obtain ⟨st', es, rec', cs⟩ := res
      simp only [validatePackagesAux, hp] at h
      have ih := validatePackagesAux_metadata w registry_dir rest st'
        (insertErrors errors rec.pkg_id es) (meta ++ [rec']) (calls ++ cs)
        errors' meta' calls' h
      have hrec : rec' = rewriteLogo registry_dir rec :=
        processPackage_record_eq w registry_dir st rec (st', es, rec', cs) hp
      subst hrec
      simpa using ih

/-- Claim C10: on a completed run, `validate_packages` returns as its
second component every discovered record in processing order — including
records that accumulated errors — and each record declaring a logo has its
logo field rewritten to the resolved registry path regardless of the image
check's outcome (`rewriteLogo` is unconditional on the check result). -/
theorem c10_metadata_order_and_logo (w : World) (registry_dir : String)
    (records : List PackageRecord) (errors : List (String × List ValidationError))
    (packages : List PackageRecord) (calls : List ExtCall)
    (h : validate_packages w registry_dir records = .ok (errors, packages, calls)) :
    packages = records.map (rewriteLogo registry_dir) := by
  simpa using validatePackagesAux_metadata w registry_dir records {} [] [] []
    errors packages calls h

/-- A record declaring a logo, used for the C10 witness. -/
def recLogo : PackageRecord :=
  { pkg_id := "gamma", project_home := some "https://c.example",
    documentation_home := some "https://docs.c.example", logo := some "logo.png" }

/-- Witness for C10 at a concrete input: a completed one-record run whose
returned record carries the rewritten logo path. -/
theorem c10_metadata_order_and_logo_witness :
    validate_packages benignWorld "registry" [recLogo] =
      .ok ([("gamma", [])], [{ recLogo with logo := some "registry/gamma/logo.png" }],
        [ExtCall.head "https://c.example", ExtCall.head "https://docs.c.example"]) ∧
    [{ recLogo with logo := some "registry/gamma/logo.png" }] =
      [recLogo].map (rewriteLogo "registry") :=
  ⟨rfl,
    c10_metadata_order_and_logo benignWorld "registry" [recLogo] [("gamma", [])]
      [{ recLogo with logo := some "registry/gamma/logo.png" }]
      [ExtCall.head "https://c.example", ExtCall.head "https://docs.c.example"] rfl⟩

/-- `any(errors.values())` is false exactly when every package's error
list is empty. -/
theorem any_nonempty_eq_false_iff (errors : List (String × List ValidationError)) :
    errors.any (fun p => !p.2.isEmpty) = false ↔ ∀ p ∈ errors, p.2 = [] := by
  simp [List.any_eq_false]

/-- Claim C5: on a completed run, `main` invokes `make_output` exactly when
every package id in the error map carries an empty error list, and exits
with failure (emitting no output) when any package accumulated an error. -/
theorem c5_output_iff_no_errors (w : World) (fs : List String) (registry_dir : String)
    (outdir : Option String) (records : List PackageRecord)
    (errors : List (String × List ValidationError)) (packages : List PackageRecord)
    (calls : List ExtCall)
    (h : validate_packages w registry_dir records = .ok (errors, packages, calls)) :
    (mainRun w fs registry_dir outdir records = .output (make_output fs packages outdir) ↔
      ∀ p ∈ errors, p.2 = []) ∧
    ((∃ p ∈ errors, p.2 ≠ []) → mainRun w fs registry_dir outdir records = .failed) := by
  constructor
  · constructor
    · intro hout
      by_cases hb : errors.any (fun p => !p.2.isEmpty)
      · simp [mainRun, h, hb] at hout
      · exact (any_nonempty_eq_false_iff errors).mp (by simpa using hb)
    · intro hall
      have hb : errors.any (fun p => !p.2.isEmpty) = false :=
        (any_nonempty_eq_false_iff errors).mpr hall
      simp [mainRun, h, hb]
  · rintro ⟨p, hp, hne⟩
    have hb : errors.any (fun p => !p.2.isEmpty) = true := by
      refine List.any_eq_true.mpr ⟨p, hp, ?_⟩
      simpa [List.isEmpty_iff] using hne
    simp [mainRun, h, hb]

/-- Witness for C5 at a concrete input: a clean one-record run produces
output via `make_output`. -/
theorem c5_output_iff_no_errors_witness :
    validate_packages benignWorld "registry" [recContactA] =
      .ok ([("alpha", [])], [recContactA],
        [ExtCall.head "https://a.example", ExtCall.head "https://docs.a.example",
         ExtCall.ghQuery ["usera"]]) ∧
    mainRun benignWorld [] "registry" none [recContactA] =
      .output (make_output [] [recContactA] none) :=
  ⟨rfl,
    (c5_output_iff_no_errors benignWorld [] "registry" none [recContactA]
      [("alpha", [])] [recContactA]
      [ExtCall.head "https://a.example", ExtCall.head "https://docs.a.example",
       ExtCall.ghQuery ["usera"]] rfl).1.mpr (by decide)⟩

/-- A record with only the required link fields (and its package id). -/
def simpleRec (pid home docs : String) : PackageRecord :=
  { pkg_id := pid, project_home := some home, documentation_home := some docs }

/-- Claim C4: link dedup is per category, through three independent
`LinkChecker` instances.  Two packages declaring the same reachable URL `u`
as `project_home` yield a duplicate-link error for the second (whose probe
is short-circuited), while `u` declared as `project_home` of one package
and as `documentation_home` of another yields no error at all. -/
theorem c4_per_category_dedup (w : World) (p1 p2 q1 q2 u v x y : String)
    (hu : w.head u = 200) (hv : w.head v = 200) (hx : w.head x = 200)
    (hy : w.head y = 200) (hs : ∀ r, w.schemaError r = none)
    (hyv : y ≠ v) (huv : u ≠ v) (hxu : x ≠ u) (hp : p1 ≠ p2) (hq : q1 ≠ q2) :
    validate_packages w "registry" [simpleRec p1 u v, simpleRec p2 u y] =
      .ok ([(p1, []), (p2, [⟨p2 ++ ": Duplicate link: " ++ u⟩])],
        [simpleRec p1 u v, simpleRec p2 u y],
        [ExtCall.head u, ExtCall.head v, ExtCall.head y]) ∧
    validate_packages w "registry" [simpleRec q1 u v, simpleRec q2 x u] =
      .ok ([(q1, []), (q2, [])],
        [simpleRec q1 u v, simpleRec q2 x u],
        [ExtCall.head u, ExtCall.head v, ExtCall.head x, ExtCall.head u]) := by
  constructor
  · simp [validate_packages, validatePackagesAux, processPackage, simpleRec,
      LinkChecker.check_and_register, checkOptLink, checkOptContact, checkOptPyPI,
      checkOptConda, checkOptCRAN, installItem, insertErrors, hu, hv, hy, hs, hyv, hp]
  · simp [validate_packages, validatePackagesAux, processPackage, simpleRec,
      LinkChecker.check_and_register, checkOptLink, checkOptContact, checkOptPyPI,
      checkOptConda, checkOptCRAN, installItem, insertErrors, hu, hv, hx, hs, huv, hxu, hq]

/-- A world with every URL reachable, clean GitHub responses, and schema
validation passing for every record. -/
def plainWorld : World :=
  { head := fun _ => 200, ghPost := fun _ => (200, []), schemaError := fun _ => none,
    imgExists := fun _ => true, imgSize := fun _ => (512, 512) }

/-- Witness for C4 at concrete inputs: concrete package ids and URLs. -/
theorem c4_per_category_dedup_witness :
    plainWorld.head "https://u.example" = 200 ∧
    (validate_packages plainWorld "registry"
        [simpleRec "alpha" "https://u.example" "https://v.example",
         simpleRec "beta" "https://u.example" "https://y.example"] =
      .ok ([("alpha", []),
            ("beta", [⟨"beta" ++ ": Duplicate link: " ++ "https://u.example"⟩])],
        [simpleRec "alpha" "https://u.example" "https://v.example",
         simpleRec "beta" "https://u.example" "https://y.example"],
        [ExtCall.head "https://u.example", ExtCall.head "https://v.example",
         ExtCall.head "https://y.example"]) ∧
     validate_packages plainWorld "registry"
        [simpleRec "gamma" "https://u.example" "https://v.example",
         simpleRec "delta" "https://x.example" "https://u.example"] =
      .ok ([("gamma", []), ("delta", [])],
        [simpleRec "gamma" "https://u.example" "https://v.example",
         simpleRec "delta" "https://x.example" "https://u.example"],
        [ExtCall.head "https://u.example", ExtCall.head "https://v.example",
         ExtCall.head "https://x.example", ExtCall.head "https://u.example"])) :=
  ⟨rfl,
    c4_per_category_dedup plainWorld "alpha" "beta" "gamma" "delta"
      "https://u.example" "https://v.example" "https://x.example" "https://y.example"
      rfl rfl rfl rfl (fun _ => rfl) (by decide) (by decide) (by decide)
      (by decide) (by decide)⟩

/-- If some remaining record's asset directory already exists, the
`make_output` loop ends in `FileExistsError` (directories only accumulate
along the loop, so the collision is still present when reached). -/
theorem makeOutputAux_collision (d : String) :
    ∀ (packages : List PackageRecord) (fs : List String) (acc : List PackageRecord),
      (∃ pkg ∈ packages, ∃ logo, pkg.logo = some logo ∧
        (d ++ "/" ++ lastComponent (dirname logo)) ∈ fs) →
      ∃ e, makeOutputAux (some d) fs acc packages = .error e
  | [], fs, acc, h => by simp at h
  | pkg :: rest, fs, acc, h => by
    rcases h with ⟨p, hp, logo, hlogo, hmem⟩
    rcases List.mem_cons.mp hp with rfl | hp'
    · simp [makeOutputAux, hlogo, hmem]
    · rcases hpl : pkg.logo with _ | l
      · simp only [makeOutputAux, hpl]
        exact makeOutputAux_collision d rest fs (acc ++ [pkg]) ⟨p, hp', logo, hlogo, hmem⟩
      · by_cases hc : (d ++ "/" ++ lastComponent (dirname l)) ∈ fs
        · simp [makeOutputAux, hpl, hc]
        · simp only [makeOutputAux, hpl]
          rw [if_neg hc]
          exact makeOutputAux_collision d rest
            ((d ++ "/" ++ lastComponent (dirname l)) :: fs) (acc ++ [{ pkg with
              logo := some (lastComponent (dirname l) ++ "/" ++ lastComponent l) }])
            ⟨p, hp', logo, hlogo, List.mem_cons_of_mem _ hmem⟩

/-- Claim C9: when an output root is given, `make_output` fails with
`FileExistsError` if the per-package asset directory for some record's logo
already exists — it never silently merges new output into a pre-existing
asset directory. -/
theorem c9_make_output_existing_dir_fails (fs : List String)
    (packages : List PackageRecord) (d : String)
    (h : ∃ pkg ∈ packages, ∃ logo, pkg.logo = some logo ∧
      (d ++ "/" ++ lastComponent (dirname logo)) ∈ fs) :
    ∃ e, make_output fs packages (some d) = .error e :=
  makeOutputAux_collision d packages fs [] h

/-- A validated record (logo already rewritten to the registry path), used
for the C9 witness. -/
def recOut : PackageRecord :=
  { pkg_id := "alpha", project_home := some "https://a.example",
    documentation_home := some "https://docs.a.example",
    logo := some "registry/alpha/logo.png" }

/-- Witness for C9 at a concrete input: the asset directory `out/alpha`
already exists, so `make_output` fails. -/
theorem c9_make_output_existing_dir_fails_witness :
    ("out" ++ "/" ++ lastComponent (dirname "registry/alpha/logo.png")) ∈
      ["out/alpha"] ∧
    ∃ e, make_output ["out/alpha"] [recOut] (some "out") = .error e :=
  ⟨by decide,
    c9_make_output_existing_dir_fails ["out/alpha"] [recOut] "out"
      ⟨recOut, List.mem_singleton.mpr rfl, "registry/alpha/logo.png", rfl, by decide⟩⟩
